import Mathlib

/-!
Shallow embedding of the provider-aggregation core of `cloudlist`
(github.com/mishra321shu/cloudlist): the Route53 provider's paginated
fetch (`pkg/providers/aws/route53.go`), the normalization of raw resource
record sets into `schema.Resource` values, and the inventory/registry
resolution (`pkg/inventory`).  Definitions are translated from the Go
source; components whose implementation is not part of this tree
(`schema.Resources.Merge`, `schema.OptionBlock.GetMetadata`, the four
provider constructors) are modelled from the specification and marked as
such in their doc comments.
-/

/-- Go struct `schema.Resource`: one discovered asset. -/
structure Resource where
  provider : String
  profile : String
  dnsName : String
  public : Bool
  publicIPv4 : String
  privateIPv4 : String
  deriving Repr, DecidableEq

/-- Go type `schema.Resources`, an ordered sequence of resources. -/
abbrev Resources := List Resource

/-- Modelled from the spec: `schema.Resources.Merge` is not under the source
tree (`route53.go` line 36 only calls it); the spec says `Merge` concatenates
another collection's elements preserving relative order of both operands. -/
def Resources.Merge (l other : Resources) : Resources :=
  l ++ other

/-- Modelled from the spec: the `providerName` constant of the aws package is
not under the source tree; it is the registry identifier of the provider,
`"aws"`. -/
def providerName : String := "aws"

/-- Go struct `route53.ResourceRecordSet` restricted to the fields
`listResourceRecords` reads: `Type`, `Name`, and the `Value` strings of
`ResourceRecords` (pointer dereference is modelled away). -/
structure ResourceRecordSet where
  type : String
  name : String
  resourceRecords : List String
  deriving Repr, DecidableEq

/-- Go `strings.HasSuffix(s, ".")`: for the one-character root-zone delimiter
this is exactly "the last character is a dot". -/
def hasSuffixDot (s : String) : Bool :=
  match s.data.getLast? with
  | some c => c == '.'
  | none => false

/-- Go `strings.TrimSuffix(s, ".")` (route53.go line 60): removes one trailing
root-zone delimiter if present, otherwise returns the string unchanged. -/
def trimSuffixDot (s : String) : String :=
  if hasSuffixDot s then ⟨s.data.dropLast⟩ else s

/-- The per-record normalization body of `listResourceRecords` (route53.go
lines 56-72): a record whose `Type` is not exactly `"A"` is skipped
(`continue`); otherwise the name gets one trailing delimiter trimmed, the
first `ResourceRecords` value (if any, else the zero value `""`) becomes
`PublicIPv4`, and the resource is built with `Public: true`; `PrivateIPv4` is
never assigned and keeps its zero value `""`. -/
def normalizeRecord (profile : String) (item : ResourceRecordSet) : Option Resource :=
  if item.type != "A" then none
  else some
    { profile := profile
      dnsName := trimSuffixDot item.name
      public := true
      publicIPv4 := item.resourceRecords.headD ""
      privateIPv4 := ""
      provider := providerName }

/-- Go struct `route53.ListResourceRecordSetsOutput` restricted to the fields
the loop reads: the record sets, `IsTruncated` and `NextRecordName`. -/
structure RecordSetOutput where
  resourceRecordSets : List ResourceRecordSet
  isTruncated : Bool
  nextRecordName : String
  deriving Repr, DecidableEq

/-- Go struct `route53.ListHostedZonesOutput` restricted to the fields
`GetResource` reads: the hosted zone ids, `IsTruncated`, `Marker` (the echo of
the marker the request carried) and `NextMarker`. -/
structure ZoneOutput where
  hostedZones : List String
  isTruncated : Bool
  marker : String
  nextMarker : String
  deriving Repr, DecidableEq

/-- The continuation decision of `listResourceRecords`' loop (route53.go lines
74-78): when the response is truncated and `NextRecordName` is non-empty, the
next request's start record name is set from the response's `NextRecordName`
(`req.SetStartRecordName(*sets.NextRecordName)`); otherwise the loop
returns. -/
def recordsNextRequest (sets : RecordSetOutput) : Option String :=
  if sets.isTruncated && sets.nextRecordName != "" then some sets.nextRecordName
  else none

/-- The continuation decision of `GetResource`'s zone loop (route53.go lines
38-42): when the response is truncated and `NextMarker` is non-empty, the next
request's marker is set from the response's `Marker` field
(`req.SetMarker(*zoneOutput.Marker)`); otherwise the loop returns. -/
def zonesNextRequest (zoneOutput : ZoneOutput) : Option String :=
  if zoneOutput.isTruncated && zoneOutput.nextMarker != "" then some zoneOutput.marker
  else none

/-- Go `errors.Wrap(err, msg)` of github.com/pkg/errors: the wrapped error's
message is `msg` followed by `": "` and the original message. -/
def errorsWrap (err msg : String) : String :=
  msg ++ ": " ++ err

/-- The record-listing pagination loop of `listResourceRecords` (route53.go
lines 51-79), run against the sequence of outcomes the backend returns for the
successive `ListResourceRecordSets` requests of one zone.  A fetch error is
wrapped `"could not list resource_record set"` and returned; otherwise the
page's record sets are normalized in order and appended, and the loop issues
the next request exactly when the response is truncated with a non-empty
`NextRecordName` (see `recordsNextRequest` for the cursor it then carries).
`none` means the script ended while the loop still wanted a page. -/
def recordsLoop (profile : String) :
    List (Except String RecordSetOutput) → Option (Except String Resources)
  | [] => none
  | Except.error e :: _ =>
      some (Except.error (errorsWrap e "could not list resource_record set"))
  | Except.ok sets :: rest =>
      let items := sets.resourceRecordSets.filterMap (normalizeRecord profile)
      if sets.isTruncated && sets.nextRecordName != "" then
        (recordsLoop profile rest).map (Except.map (fun l => Resources.Merge items l))
      else some (Except.ok items)

/-- The number of `ListResourceRecordSets` page requests the loop of
`listResourceRecords` issues against a given backend response script: every
consumed response corresponds to exactly one request, and the loop stops after
an error or after a response that is not truncated with a non-empty
`NextRecordName`. -/
def recordsLoopPages : List (Except String RecordSetOutput) → Nat
  | [] => 0
  | Except.error _ :: _ => 1
  | Except.ok sets :: rest =>
      if sets.isTruncated && sets.nextRecordName != "" then 1 + recordsLoopPages rest
      else 1

/-- The per-zone body of `GetResource`'s inner `for` over
`zoneOutput.HostedZones` (route53.go lines 31-37): for each zone id in order,
`listResourceRecords` is run (against that zone's response script); its error
is wrapped `"could not list hosted zones records"` and returned at once, and
its items are merged into the accumulated list. -/
def mergeZones (profile : String) (recScripts : String → List (Except String RecordSetOutput)) :
    List String → Option (Except String Resources)
  | [] => some (Except.ok [])
  | z :: zs =>
      match recordsLoop profile (recScripts z) with
      | none => none
      | some (Except.error e) =>
          some (Except.error (errorsWrap e "could not list hosted zones records"))
      | some (Except.ok items) =>
          match mergeZones profile recScripts zs with
          | none => none
          | some (Except.error e) => some (Except.error e)
          | some (Except.ok rest) => some (Except.ok (Resources.Merge items rest))

/-- The zone-listing pagination loop of `GetResource` (route53.go lines
22-44), run against the sequence of outcomes the backend returns for the
successive `ListHostedZones` requests: a fetch error is wrapped
`"could not list hosted zones"` and returned; otherwise every zone of the page
is expanded through `mergeZones`, and the loop issues the next request exactly
when the response is truncated with a non-empty `NextMarker` (see
`zonesNextRequest` for the marker it then carries).  `none` means a script
ended while a loop still wanted a page. -/
def getResourceLoop (profile : String)
    (recScripts : String → List (Except String RecordSetOutput)) :
    List (Except String ZoneOutput) → Option (Except String Resources)
  | [] => none
  | Except.error e :: _ =>
      some (Except.error (errorsWrap e "could not list hosted zones"))
  | Except.ok zoneOutput :: rest =>
      match mergeZones profile recScripts zoneOutput.hostedZones with
      | none => none
      | some (Except.error e) => some (Except.error e)
      | some (Except.ok items) =>
          if zoneOutput.isTruncated && zoneOutput.nextMarker != "" then
            (getResourceLoop profile recScripts rest).map
              (Except.map (fun l => Resources.Merge items l))
          else some (Except.ok items)

/-- Modelled from the spec: `schema.OptionBlock` and its `GetMetadata` method
are not under the source tree; the spec says a configuration block is "a
mapping from string keys to string values ... with a lookup-by-key operation
returning (value, found)".  The mapping is modelled as an association list. -/
abbrev OptionBlock := List (String × String)

/-- Modelled from the spec: lookup-by-key on a configuration block; `some v`
is Go's `(v, true)` and `none` is `("", false)`. -/
def OptionBlock.GetMetadata (block : OptionBlock) (key : String) : Option String :=
  (block.find? (fun p => p.1 == key)).map (fun p => p.2)

/-- Modelled from the spec: the four provider constructors (`aws.New`,
`digitalocean.New`, `gcp.New`, `scaleway.New`) are not under the source tree;
per the spec each variant "is constructed from a ProviderConfigBlock" and
"construction fails with a ConfigurationError if required keys ... are absent
or malformed".  They are kept abstract as parameters over the provider
type `P`. -/
structure Constructors (P : Type) where
  awsNew : OptionBlock → Except String P
  doNew : OptionBlock → Except String P
  gcpNew : OptionBlock → Except String P
  scwNew : OptionBlock → Except String P

/-- Go `inventory.nameToProvider` (inventory.go): a `switch` on the provider
name dispatching to the matching constructor, with default
`fmt.Errorf("invalid provider name found: %s", value)`. -/
def nameToProvider {P : Type} (c : Constructors P) (value : String) (block : OptionBlock) :
    Except String P :=
  match value with
  | "aws" => c.awsNew block
  | "do" => c.doNew block
  | "gcp" => c.gcpNew block
  | "scw" => c.scwNew block
  | _ => Except.error ("invalid provider name found: " ++ value)

/-- Go `inventory.New` (inventory.go): for each configuration block in order,
a block without a `provider` metadata key is skipped (`continue`); a block
whose provider name fails to resolve is logged via `gologger.Warningf` and
skipped (`continue`, modelled as the skip alone); a resolved provider is
appended to the inventory. -/
def inventoryNew {P : Type} (c : Constructors P) : List OptionBlock → List P
  | [] => []
  | block :: rest =>
      match block.GetMetadata "provider" with
      | none => inventoryNew c rest
      | some value =>
          match nameToProvider c value block with
          | Except.error _ => inventoryNew c rest
          | Except.ok p => p :: inventoryNew c rest

/-- The spec's description of the inventory, stated in its own words for
comparison with `inventoryNew`: "the resulting inventory contains exactly the
providers of the successfully-resolved blocks, in block order". -/
def resolvedProviders {P : Type} (c : Constructors P) (options : List OptionBlock) : List P :=
  options.filterMap (fun block =>
    match block.GetMetadata "provider" with
    | none => none
    | some value => (nameToProvider c value block).toOption)

/-- A concrete instantiation of the abstract provider constructors, with the
provider type `Unit` and every constructor succeeding; used to evaluate the
registry on concrete names. -/
def unitConstructors : Constructors Unit where
  awsNew := fun _ => Except.ok ()
  doNew := fun _ => Except.ok ()
  gcpNew := fun _ => Except.ok ()
  scwNew := fun _ => Except.ok ()

/-- C1: the claim states that in both pagination loops the next page request
carries exactly the `nextCursor` just returned.  The inner record-listing loop
does (it advances with `NextRecordName`), but the outer zone-listing loop of
`GetResource` advances with the stale `Marker` field of the response instead
of `NextMarker`: at a truncated response with `Marker = "stale-marker"` and
`NextMarker = "fresh-next-marker"`, the next request carries
`"stale-marker"`. -/
theorem c1_cursor_advance :
    zonesNextRequest ⟨[], true, "stale-marker", "fresh-next-marker"⟩ = some "stale-marker" ∧
    "stale-marker" ≠ "fresh-next-marker" ∧
    recordsNextRequest ⟨[], true, "fresh-next-record"⟩ = some "fresh-next-record" :=
  ⟨rfl, by decide, rfl⟩

/-- C2: the record-listing loop stops and returns the accumulated collection
exactly when the response is not truncated with a non-empty `NextRecordName`
(the tail of the script is never consumed), issues one more request when it
is, and on the concrete 3-page script (truncated, truncated, false) with
2/2/1 records of type `"A"` it issues exactly 3 page requests and returns
exactly 5 resources in page order. -/
theorem c2_records_pagination (profile : String) (sets : RecordSetOutput)
    (rest : List (Except String RecordSetOutput)) :
    ((sets.isTruncated && sets.nextRecordName != "") = false →
      recordsLoop profile (Except.ok sets :: rest) =
        some (Except.ok (sets.resourceRecordSets.filterMap (normalizeRecord profile))) ∧
      recordsLoopPages (Except.ok sets :: rest) = 1) ∧
    ((sets.isTruncated && sets.nextRecordName != "") = true →
      recordsLoopPages (Except.ok sets :: rest) = 1 + recordsLoopPages rest) ∧
    recordsLoop profile
      [Except.ok ⟨[⟨"A", "a1.example.com.", ["192.0.2.1"]⟩,
                   ⟨"A", "a2.example.com.", ["192.0.2.2"]⟩], true, "r3"⟩,
       Except.ok ⟨[⟨"A", "a3.example.com.", ["192.0.2.3"]⟩,
                   ⟨"A", "a4.example.com.", ["192.0.2.4"]⟩], true, "r5"⟩,
       Except.ok ⟨[⟨"A", "a5.example.com.", ["192.0.2.5"]⟩], false, ""⟩] =
      some (Except.ok
        [⟨providerName, profile, "a1.example.com", true, "192.0.2.1", ""⟩,
         ⟨providerName, profile, "a2.example.com", true, "192.0.2.2", ""⟩,
         ⟨providerName, profile, "a3.example.com", true, "192.0.2.3", ""⟩,
         ⟨providerName, profile, "a4.example.com", true, "192.0.2.4", ""⟩,
         ⟨providerName, profile, "a5.example.com", true, "192.0.2.5", ""⟩]) ∧
    recordsLoopPages
      [Except.ok ⟨[⟨"A", "a1.example.com.", ["192.0.2.1"]⟩,
                   ⟨"A", "a2.example.com.", ["192.0.2.2"]⟩], true, "r3"⟩,
       Except.ok ⟨[⟨"A", "a3.example.com.", ["192.0.2.3"]⟩,
                   ⟨"A", "a4.example.com.", ["192.0.2.4"]⟩], true, "r5"⟩,
       Except.ok ⟨[⟨"A", "a5.example.com.", ["192.0.2.5"]⟩], false, ""⟩] = 3 := by
  refine ⟨?_, ?_, rfl, rfl⟩
  · intro h
    constructor
    · simp [recordsLoop, h]
    · simp [recordsLoopPages, h]
  · intro h
    simp [recordsLoopPages, h]

/-- C2 witness: at a non-truncated empty page the loop stops after one request
with the empty collection, and at a truncated page with non-empty
`NextRecordName` it issues a further request. -/
theorem c2_records_pagination_witness :
    (recordsLoop "p" [Except.ok ⟨[], false, ""⟩] = some (Except.ok []) ∧
      recordsLoopPages [Except.ok ⟨[], false, ""⟩] = 1) ∧
    recordsLoopPages [Except.ok ⟨[], true, "r2"⟩] = 1 + recordsLoopPages [] :=
  ⟨(c2_records_pagination "p" ⟨[], false, ""⟩ []).1 rfl,
   (c2_records_pagination "p" ⟨[], true, "r2"⟩ []).2.1 rfl⟩

/-- C4: a raw record whose type is not exactly `"A"` produces no resource (the
filter is an exact string match), and every record of type exactly `"A"`
produces one. -/
theorem c4_type_filter_exact (profile : String) (item : ResourceRecordSet) :
    (item.type ≠ "A" → normalizeRecord profile item = none) ∧
    (item.type = "A" → ∃ r, normalizeRecord profile item = some r) := by
  constructor
  · intro h
    simp [normalizeRecord, h]
  · intro h
    exact ⟨⟨providerName, profile, trimSuffixDot item.name, true,
            item.resourceRecords.headD "", ""⟩, by simp [normalizeRecord, h]⟩

/-- C4 witness: a record of type `"AAAA"` (which a prefix match on `"A"` would
retain) is dropped, and a record of type exactly `"A"` is kept. -/
theorem c4_type_filter_exact_witness :
    normalizeRecord "p" ⟨"AAAA", "a.example.com.", ["2001:db8::1"]⟩ = none ∧
    ∃ r, normalizeRecord "p" ⟨"A", "a.example.com.", ["192.0.2.1"]⟩ = some r :=
  ⟨(c4_type_filter_exact "p" ⟨"AAAA", "a.example.com.", ["2001:db8::1"]⟩).1 (by decide),
   (c4_type_filter_exact "p" ⟨"A", "a.example.com.", ["192.0.2.1"]⟩).2 rfl⟩

/-- C6: every retained (type `"A"`) record produces exactly one resource whose
`PublicIPv4` is the first associated value when one exists and the empty
string when the record has none; the resource is produced either way. -/
theorem c6_first_value_or_empty (profile : String) (item : ResourceRecordSet)
    (h : item.type = "A") :
    ∃ r, normalizeRecord profile item = some r ∧
      r.publicIPv4 = item.resourceRecords.headD "" ∧
      (item.resourceRecords = [] → r.publicIPv4 = "") ∧
      (∀ v vs, item.resourceRecords = v :: vs → r.publicIPv4 = v) := by
  refine ⟨{ provider := providerName, profile := profile, dnsName := trimSuffixDot item.name,
            public := true, publicIPv4 := item.resourceRecords.headD "", privateIPv4 := "" },
         ?_, rfl, ?_, ?_⟩
  · simp [normalizeRecord, h]
  · intro h0
    rw [h0]
    rfl
  · intro v vs hv
    rw [hv]
    rfl

/-- C6 witness: a type-`"A"` record with no associated values still yields a
resource, with empty `PublicIPv4`. -/
theorem c6_first_value_or_empty_witness :
    ∃ r, normalizeRecord "p" ⟨"A", "host.example.com.", []⟩ = some r ∧
      r.publicIPv4 = "" := by
  obtain ⟨r, h1, -, h3, -⟩ := c6_first_value_or_empty "p" ⟨"A", "host.example.com.", []⟩ rfl
  exact ⟨r, h1, h3 rfl⟩

/-- C9: `Merge` yields `len(A)+len(B)` elements, exactly `A`'s elements
followed by `B`'s in order, and is associative element-for-element. -/
theorem c9_merge_append_assoc (A B C : Resources) :
    (Resources.Merge A B).length = A.length + B.length ∧
    Resources.Merge A B = A ++ B ∧
    Resources.Merge (Resources.Merge A B) C = Resources.Merge A (Resources.Merge B C) :=
  ⟨List.length_append A B, rfl, List.append_assoc A B C⟩

/-- C10: every resource the normalization produces has `Public = true` and
`PrivateIPv4 = ""` unconditionally, its `PublicIPv4` taken from the record's
values with no reachability inspection whatsoever. -/
theorem c10_public_unconditional (profile : String) (item : ResourceRecordSet) (r : Resource)
    (h : normalizeRecord profile item = some r) :
    r.public = true ∧ r.privateIPv4 = "" ∧
    r.publicIPv4 = item.resourceRecords.headD "" ∧ r.provider = providerName := by
  unfold normalizeRecord at h
  split at h
  · cases h
  · cases h
    exact ⟨rfl, rfl, rfl, rfl⟩

/-- C10 witness: an `"A"` record pointing at the private address `10.0.0.1`
is still reported as a public asset with that address in `PublicIPv4`. -/
theorem c10_public_unconditional_witness :
    normalizeRecord "p" ⟨"A", "internal.example.com.", ["10.0.0.1"]⟩ =
      some ⟨providerName, "p", "internal.example.com", true, "10.0.0.1", ""⟩ ∧
    Resource.public ⟨providerName, "p", "internal.example.com", true, "10.0.0.1", ""⟩ = true ∧
    Resource.privateIPv4 ⟨providerName, "p", "internal.example.com", true, "10.0.0.1", ""⟩ = "" :=
  ⟨rfl,
   (c10_public_unconditional "p" ⟨"A", "internal.example.com.", ["10.0.0.1"]⟩ _ rfl).1,
   (c10_public_unconditional "p" ⟨"A", "internal.example.com.", ["10.0.0.1"]⟩ _ rfl).2.1⟩

/-- C3: the inventory built over any sequence of configuration blocks is
exactly the sequence of providers of the successfully-resolved blocks, in
block order: blocks without a `provider` key and blocks whose provider name
fails to resolve are skipped without affecting any later block. -/
theorem c3_inventory_isolation {P : Type} (c : Constructors P) (options : List OptionBlock) :
    inventoryNew c options = resolvedProviders c options := by
  induction options with
  | nil => rfl
  | cons block rest ih =>
      unfold inventoryNew resolvedProviders
      rw [List.filterMap_cons]
      cases hm : OptionBlock.GetMetadata block "provider" with
      | none => simpa [resolvedProviders] using ih
      | some v =>
          cases hr : nameToProvider c v block with
          | error e => simp [hr, Except.toOption, resolvedProviders, ih]
          | ok p => simp [hr, Except.toOption, resolvedProviders, ih]

/-- C5: name normalization removes exactly one trailing root-zone delimiter
and nothing else (the trimmed name followed by the delimiter is the original
character sequence), leaves names without a trailing delimiter unchanged, and
— when the raw name does not end in two delimiters — the normalized name never
ends in the delimiter; every produced resource's `DNSName` is the normalized
raw name. -/
theorem c5_trailing_delimiter (profile : String) (item : ResourceRecordSet) (r : Resource)
    (s : String) :
    (hasSuffixDot s = true → (trimSuffixDot s).data ++ ['.'] = s.data) ∧
    (hasSuffixDot s = false → trimSuffixDot s = s) ∧
    (¬(hasSuffixDot s = true ∧ hasSuffixDot ⟨s.data.dropLast⟩ = true) →
      hasSuffixDot (trimSuffixDot s) = false) ∧
    (normalizeRecord profile item = some r → r.dnsName = trimSuffixDot item.name) := by
  refine ⟨?_, ?_, ?_, ?_⟩
  · intro h
    have h' : s.data.getLast? = some '.' := by
      unfold hasSuffixDot at h
      cases hl : s.data.getLast? with
      | none => rw [hl] at h; cases h
      | some ch =>
          rw [hl] at h
          simp only [beq_iff_eq] at h
          rw [h]
    simp only [trimSuffixDot, h, if_true]
    exact List.dropLast_append_getLast? '.' (by rw [h']; rfl)
  · intro h
    simp [trimSuffixDot, h]
  · intro hn
    cases hA : hasSuffixDot s with
    | false =>
        have hs : trimSuffixDot s = s := by simp [trimSuffixDot, hA]
        rw [hs]
        exact hA
    | true =>
        have hB : hasSuffixDot ⟨s.data.dropLast⟩ = false := by
          cases h0 : hasSuffixDot ⟨s.data.dropLast⟩ with
          | false => rfl
          | true => exact absurd ⟨hA, h0⟩ hn
        have hs : trimSuffixDot s = ⟨s.data.dropLast⟩ := by simp [trimSuffixDot, hA]
        rw [hs]
        exact hB
  · intro h
    unfold normalizeRecord at h
    split at h
    · cases h
    · cases h
      rfl

/-- C5 witness: `"a.example.com."` normalizes to `"a.example.com"` (one
delimiter stripped, nothing else altered, no trailing delimiter left),
`"a.example.com"` is unchanged, and the produced resource's `DNSName` is the
normalized name. -/
theorem c5_trailing_delimiter_witness :
    ((trimSuffixDot "a.example.com.").data ++ ['.'] = "a.example.com.".data) ∧
    trimSuffixDot "a.example.com" = "a.example.com" ∧
    hasSuffixDot (trimSuffixDot "a.example.com.") = false ∧
    Resource.dnsName ⟨providerName, "p", trimSuffixDot "a.example.com.", true, "192.0.2.1", ""⟩ =
      trimSuffixDot "a.example.com." :=
  ⟨(c5_trailing_delimiter "p" ⟨"A", "a.example.com.", ["192.0.2.1"]⟩
      ⟨providerName, "p", trimSuffixDot "a.example.com.", true, "192.0.2.1", ""⟩
      "a.example.com.").1 (by decide),
   (c5_trailing_delimiter "p" ⟨"A", "a.example.com.", ["192.0.2.1"]⟩
      ⟨providerName, "p", trimSuffixDot "a.example.com.", true, "192.0.2.1", ""⟩
      "a.example.com").2.1 (by decide),
   (c5_trailing_delimiter "p" ⟨"A", "a.example.com.", ["192.0.2.1"]⟩
      ⟨providerName, "p", trimSuffixDot "a.example.com.", true, "192.0.2.1", ""⟩
      "a.example.com.").2.2.1 (by decide),
   (c5_trailing_delimiter "p" ⟨"A", "a.example.com.", ["192.0.2.1"]⟩
      ⟨providerName, "p", trimSuffixDot "a.example.com.", true, "192.0.2.1", ""⟩
      "a.example.com.").2.2.2 (by decide)⟩

/-- C7: registry resolution returns the matching variant's constructor result
for each of the four recognized identifiers, and for every unrecognized name
returns no provider together with an error naming the unrecognized value. -/
theorem c7_registry_resolution {P : Type} (c : Constructors P) (block : OptionBlock)
    (value : String) :
    nameToProvider c "aws" block = c.awsNew block ∧
    nameToProvider c "do" block = c.doNew block ∧
    nameToProvider c "gcp" block = c.gcpNew block ∧
    nameToProvider c "scw" block = c.scwNew block ∧
    (value ∉ (["aws", "do", "gcp", "scw"] : List String) →
      nameToProvider c value block = Except.error ("invalid provider name found: " ++ value)) := by
  refine ⟨rfl, rfl, rfl, rfl, ?_⟩
  intro h
  unfold nameToProvider
  split <;> simp_all

/-- C7 witness: the unrecognized name `"azure"` resolves to no provider and to
an error carrying that name. -/
theorem c7_registry_resolution_witness :
    "azure" ∉ (["aws", "do", "gcp", "scw"] : List String) ∧
    nameToProvider unitConstructors "azure" [] =
      Except.error ("invalid provider name found: " ++ "azure") :=
  ⟨by decide, (c7_registry_resolution unitConstructors [] "azure").2.2.2.2 (by decide)⟩

/-- C8 counterexample: the error surfaced for a record-listing failure does
not carry the specific zone — the same backend failure under zone id `"Z1"`
and under zone id `"Z2"` produces the identical error value, a fixed wrap
message that names the operation only. -/
theorem c8_counterexample :
    getResourceLoop "p" (fun _ => [Except.error "boom"]) [Except.ok ⟨["Z1"], false, "", ""⟩] =
      some (Except.error
        "could not list hosted zones records: could not list resource_record set: boom") ∧
    getResourceLoop "p" (fun _ => [Except.error "boom"]) [Except.ok ⟨["Z2"], false, "", ""⟩] =
      getResourceLoop "p" (fun _ => [Except.error "boom"]) [Except.ok ⟨["Z1"], false, "", ""⟩] :=
  ⟨rfl, rfl⟩

/-- C8 (amended): a zone-listing page failure makes `GetResource` return only
the error, wrapped `"could not list hosted zones"`, with the rest of the
script never consumed; a record-listing page failure for a zone is wrapped
`"could not list resource_record set"` and again `"could not list hosted zones
records"` (a static operation context, not naming the zone), after exactly one
request to that zone's listing and with later zones never reached; and any
record-listing error surfaces from the zone loop unchanged — no collection is
returned and nothing is retried. -/
theorem c8_fetch_error_wrapped (profile e z : String)
    (rs : String → List (Except String RecordSetOutput))
    (rest : List (Except String ZoneOutput)) (zs : List String)
    (rest' : List (Except String RecordSetOutput)) :
    getResourceLoop profile rs (Except.error e :: rest) =
      some (Except.error (errorsWrap e "could not list hosted zones")) ∧
    (rs z = Except.error e :: rest' →
      mergeZones profile rs (z :: zs) =
        some (Except.error (errorsWrap (errorsWrap e "could not list resource_record set")
          "could not list hosted zones records")) ∧
      recordsLoopPages (rs z) = 1) ∧
    (∀ (zoneOutput : ZoneOutput) (e' : String),
      mergeZones profile rs zoneOutput.hostedZones = some (Except.error e') →
      getResourceLoop profile rs (Except.ok zoneOutput :: rest) = some (Except.error e')) := by
  refine ⟨rfl, ?_, ?_⟩
  · intro h
    constructor
    · simp [mergeZones, h, recordsLoop]
    · rw [h]
      rfl
  · intro zo e' h
    simp [getResourceLoop, h]

/-- C8 witness: a concrete zone-listing failure and a concrete record-listing
failure, each surfaced once with its wrap. -/
theorem c8_fetch_error_wrapped_witness :
    getResourceLoop "p" (fun _ => [Except.error "boom"]) [Except.error "net down"] =
      some (Except.error (errorsWrap "net down" "could not list hosted zones")) ∧
    mergeZones "p" (fun _ => [Except.error "boom"]) ["Z1"] =
      some (Except.error (errorsWrap (errorsWrap "boom" "could not list resource_record set")
        "could not list hosted zones records")) ∧
    recordsLoopPages [Except.error "boom"] = 1 :=
  ⟨(c8_fetch_error_wrapped "p" "net down" "Z1" (fun _ => [Except.error "boom"]) [] [] []).1,
   ((c8_fetch_error_wrapped "p" "boom" "Z1" (fun _ => [Except.error "boom"]) [] [] []).2.1
      rfl).1,
   ((c8_fetch_error_wrapped "p" "boom" "Z1" (fun _ => [Except.error "boom"]) [] [] []).2.1
      rfl).2⟩
